import Mathlib

/-!
Verification development for `src/backend/access/transam/xlogarchive.c`
(WAL archive/restore coordination layer).

Shallow embedding conventions:

* C strings are embedded as `List Char` (for the restore-command machinery,
  where the byte-by-byte buffer arithmetic matters) or `String` (for the
  archive-status marker protocol, where only path identity matters).
* Machine integers carry no overflow-relevant arithmetic here; sizes and
  exit codes are `Nat`.
* The process exits through `ereport(FATAL, ...)` / `proc_exit(1)` /
  `Assert` are reified as a `ProcOutcome` tag on each operation's result,
  and the `ereport` calls that do not abort are reified as an ordered list
  of `(Severity, LogTag)` events.
* External state read by the code (configuration globals, `stat` results,
  the exit status handed back by `system`) is passed in explicitly as an
  environment record; each separate `stat` call reads a separately indexed
  snapshot `fs n path`, so that the marker files may change between two
  consecutive checks, exactly as the inter-process race model demands.
-/

set_option autoImplicit false

namespace XLogArchive

/-- Constant `MAXPGPATH`, the fixed capacity of every command/path buffer in the C
file (from `pg_config_manual.h`). -/
def MAXPGPATH : Nat := 1024

/-- Result of a `stat(2)` call: success (with `st_size`), failure with
`errno == ENOENT`, or failure with any other `errno`. -/
inductive StatR where
  | ok (size : Nat)
  | enoent
  | err
deriving DecidableEq

/-- Whether a `stat` call returned 0. -/
def statOk : StatR → Bool
  | .ok _ => true
  | _ => false

/-- Exit status of a child process as observed by the caller of `system`,
abstracting the raw wait-status `int`: either a normal exit with a code
(`WEXITSTATUS`), or termination by a signal (`WTERMSIG`). -/
inductive CmdStatus where
  | exited (code : Nat)
  | signaled (sig : Nat)
deriving DecidableEq

/-- Test `rc == 0`: the child exited normally with code 0. -/
def isSuccess : CmdStatus → Bool
  | .exited 0 => true
  | _ => false

/-- Macro `WIFSIGNALED(rc)`. -/
def WIFSIGNALED : CmdStatus → Bool
  | .signaled _ => true
  | .exited _ => false

/-- Macro `WTERMSIG(rc)` (meaningful only when `WIFSIGNALED`). -/
def WTERMSIG : CmdStatus → Nat
  | .signaled s => s
  | .exited _ => 0

/-- Macro `WEXITSTATUS(rc)` (meaningful only when not `WIFSIGNALED`). -/
def WEXITSTATUS : CmdStatus → Nat
  | .exited c => c
  | .signaled _ => 0

/-- POSIX `SIGTERM`. -/
def SIGTERM : Nat := 15

/-- How the embedded operation left the process: a normal return, an abort
through `ereport(FATAL, ...)`, a clean exit through `proc_exit(1)`, or an
`Assert` failure (cassert build). -/
inductive ProcOutcome where
  | normal
  | fatalAbort
  | shutdownExit
  | assertFail
deriving DecidableEq

/-- The `ereport` severity levels used in this file. -/
inductive Severity where
  | DEBUG3
  | DEBUG2
  | DEBUG1
  | LOG
  | WARNING
  | FATAL
deriving DecidableEq

/-- Which `ereport` message was emitted (identifying the call site, not the
formatted text). -/
inductive LogTag where
  | execCmd
  | wrongSize
  | restored
  | restoreFailed
  | recoveryCmdFailed
  | statFailed
  | removeFailed
  | createStatusFailed
  | writeStatusFailed
deriving DecidableEq

/-! ## Command template expansion (RestoreArchivedFile lines 144-195,
ExecuteRecoveryCommand lines 352-390)

The C code writes into a `char[MAXPGPATH]` buffer through `dp`, with
`endp = buf + MAXPGPATH - 1` and `*endp = '\0'` pre-set.  A single
character is stored only under `dp < endp`; a string is stored with
`StrNCpy(dp, src, endp - dp)`, which copies at most `endp - dp - 1`
characters (forcing a terminator), after which `dp += strlen(dp)`.
We model the buffer contents as the `List Char` written so far. -/

/-- Statement `if (dp < endp) *dp++ = c;` — append one character unless the buffer
is full. -/
def appendChar (out : List Char) (c : Char) : List Char :=
  if out.length < MAXPGPATH - 1 then out ++ [c] else out

/-- Statement `StrNCpy(dp, src, endp - dp); dp += strlen(dp);` — append at most
`endp - dp - 1` characters of `src` (no-op when `endp - dp = 0`). -/
def appendStrN (out src : List Char) : List Char :=
  if MAXPGPATH - 1 - out.length = 0 then out
  else out ++ src.take (MAXPGPATH - 1 - out.length - 1)

/-- The expansion loop of `RestoreArchivedFile` (lines 151-194): placeholders
`%p` (target path, `make_native_path` being the identity off Windows),
`%f` (segment filename), `%r` (last restart point filename), `%%` (a literal
percent); any other character after `%`, including end of string, leaves the
`%` emitted literally and resumes the scan at the following character. -/
def expandRestoreLoop (xlogpath xlogfname lastRestart : List Char) :
    List Char → List Char → List Char
  | [], out => out
  | c :: rest, out =>
    if c = '%' then
      match rest with
      | [] => appendChar out '%'
      | c2 :: rest2 =>
        if c2 = 'p' then
          expandRestoreLoop xlogpath xlogfname lastRestart rest2 (appendStrN out xlogpath)
        else if c2 = 'f' then
          expandRestoreLoop xlogpath xlogfname lastRestart rest2 (appendStrN out xlogfname)
        else if c2 = 'r' then
          expandRestoreLoop xlogpath xlogfname lastRestart rest2 (appendStrN out lastRestart)
        else if c2 = '%' then
          expandRestoreLoop xlogpath xlogfname lastRestart rest2 (appendChar out '%')
        else
          expandRestoreLoop xlogpath xlogfname lastRestart (c2 :: rest2) (appendChar out '%')
    else
      expandRestoreLoop xlogpath xlogfname lastRestart rest (appendChar out c)

/-- Full expansion of the `restore_command` template starting from an empty
buffer. -/
def expandRestoreTemplate (tmpl xlogpath xlogfname lastRestart : List Char) : List Char :=
  expandRestoreLoop xlogpath xlogfname lastRestart tmpl []

/-- The expansion loop of `ExecuteRecoveryCommand` (lines 359-389): only
`%r` and `%%` are recognized there. -/
def expandRecoveryLoop (lastRestart : List Char) :
    List Char → List Char → List Char
  | [], out => out
  | c :: rest, out =>
    if c = '%' then
      match rest with
      | [] => appendChar out '%'
      | c2 :: rest2 =>
        if c2 = 'r' then
          expandRecoveryLoop lastRestart rest2 (appendStrN out lastRestart)
        else if c2 = '%' then
          expandRecoveryLoop lastRestart rest2 (appendChar out '%')
        else
          expandRecoveryLoop lastRestart (c2 :: rest2) (appendChar out '%')
    else
      expandRecoveryLoop lastRestart rest (appendChar out c)

/-- Full expansion of a recovery command template starting from an empty
buffer. -/
def expandRecoveryTemplate (tmpl lastRestart : List Char) : List Char :=
  expandRecoveryLoop lastRestart tmpl []

/-! ## Segment filenames and the retention cutoff

`XLogFileName` and `XLByteToSeg` live in `src/include/access/xlog_internal.h`,
which is not part of this repository snapshot (only `xlogarchive.c` is). -/

/-- Modelled from the spec: byte-wise `strcmp(a, b) <= 0`, the lexicographic
order the spec's "sorts at or before" and the `Assert(strcmp(...) <= 0)` at
line 139 refer to.  (`strcmp` itself is C library code outside this
repository.) -/
def strLe : List Char → List Char → Bool
  | [], _ => true
  | _ :: _, [] => false
  | a :: as, b :: bs =>
    if a.toNat < b.toNat then true
    else if b.toNat < a.toNat then false
    else strLe as bs

/-- One uppercase hexadecimal digit, as produced by `%X` formatting. -/
def hexDigit (n : Nat) : Char :=
  if n % 16 < 10 then Char.ofNat (48 + n % 16) else Char.ofNat (55 + n % 16)

/-- Eight-digit zero-padded uppercase hexadecimal rendering of a 32-bit
value, as produced by `%08X`. -/
def hex8 (n : Nat) : List Char :=
  [7, 6, 5, 4, 3, 2, 1, 0].map fun i => hexDigit (n / 16 ^ i)

/-- Constant `XLogSegmentsPerXLogId` = 2^32 / `XLOG_SEG_SIZE` (16 MB segments). -/
def XLogSegmentsPerXLogId : Nat := 256

/-- Modelled from the spec: `XLogFileName` from `xlog_internal.h` (missing
from this snapshot) renders "timeline + sequence ... as a fixed-width
filename string" (spec §3) — three `%08X` fields: the timeline id, then the
segment number split as `segno / XLogSegmentsPerXLogId` and
`segno % XLogSegmentsPerXLogId`. -/
def XLogFileName (tli segno : Nat) : List Char :=
  hex8 tli ++ hex8 (segno / XLogSegmentsPerXLogId) ++ hex8 (segno % XLogSegmentsPerXLogId)

/-- The retention-cutoff filename substituted for `%r` (lines 133-142):
the filename of the oldest restart point when cleanup is enabled, else the
filename of `InvalidXLogRecPtr`, i.e. `XLogFileName(0, 0)`.  The
`GetOldestRestartPoint`/`XLByteToSeg` collaborators are external (spec §6);
the environment supplies the resulting timeline and segment number. -/
def restoreCutoff (cleanupEnabled : Bool) (restartTli restartSeg : Nat) : List Char :=
  if cleanupEnabled then XLogFileName restartTli restartSeg else XLogFileName 0 0

/-! ## RestoreArchivedFile (lines 49-315) -/

/-- Constant `XLOGDIR` (`"pg_xlog"` in this release). -/
def XLOGDIR : List Char := 'p' :: 'g' :: '_' :: 'x' :: 'l' :: 'o' :: 'g' :: []

/-- External state consumed by one `RestoreArchivedFile` call: the
configuration globals (`recoveryRestoreCommand`, `StandbyMode`), the answers
the filesystem gives to its two `stat` calls and its `unlink`, the oldest
restart point handed back by `GetOldestRestartPoint`+`XLByteToSeg`, and the
exit status `system` returns for the restore command. -/
structure RestoreEnv where
  restoreCommand : Option (List Char)
  standbyMode : Bool
  preStat : StatR
  unlinkOk : Bool
  restartTli : Nat
  restartSeg : Nat
  cmdStatus : CmdStatus
  postStat : StatR
deriving DecidableEq

/-- Observable result of one `RestoreArchivedFile` call: how the process
left the function, the returned boolean, the contents written into the
caller's `path` buffer (`none` = the buffer was not written), the resolved
restore command (if one was built), the `%r` cutoff filename (if computed),
and the ordered `ereport` events below FATAL. -/
structure RestoreResult where
  outcome : ProcOutcome
  found : Bool
  pathOut : Option (List Char)
  resolvedCmd : Option (List Char)
  cutoff : Option (List Char)
  logs : List (Severity × LogTag)
deriving DecidableEq

/-- The conventional on-disk path `XLOGDIR "/%s"` filled in at the
`not_available` label (line 313). -/
def notAvailablePath (xlogfname : List Char) : List Char :=
  XLOGDIR ++ '/' :: xlogfname

/-- Lines 295-314: classification of a failed (or vacuously rc=0 with the
file missing) restore command, then the `not_available` tail.  `proc_exit(1)`
on child SIGTERM precedes any logging; any other signal or exit status > 125
is FATAL; otherwise a DEBUG2 report and the ordinary not-found return. -/
def restoreClassify (xlogfname cmd cutoff : List Char) (rc : CmdStatus)
    (logs : List (Severity × LogTag)) : RestoreResult :=
  if WIFSIGNALED rc = true ∧ WTERMSIG rc = SIGTERM then
    { outcome := .shutdownExit, found := false, pathOut := none,
      resolvedCmd := some cmd, cutoff := some cutoff, logs := logs }
  else if WIFSIGNALED rc = true ∨ 125 < WEXITSTATUS rc then
    { outcome := .fatalAbort, found := false, pathOut := none,
      resolvedCmd := some cmd, cutoff := some cutoff,
      logs := logs ++ [(.FATAL, .restoreFailed)] }
  else
    { outcome := .normal, found := false, pathOut := some (notAvailablePath xlogfname),
      resolvedCmd := some cmd, cutoff := some cutoff,
      logs := logs ++ [(.DEBUG2, .restoreFailed)] }

/-- Lines 213-266: after `system` returns.  On rc = 0 the produced file is
checked for existence and size; a size mismatch is DEBUG1-and-return-false
only in standby mode with a smaller-than-expected file, else FATAL; a
matching (or unchecked) size is the successful return of the temporary
path.  A missing file, or rc ≠ 0, goes to `restoreClassify`. -/
def restoreAfterCommand (env : RestoreEnv) (xlogfname xlogpath cmd cutoff : List Char)
    (expectedSize : Nat) (logs : List (Severity × LogTag)) : RestoreResult :=
  if isSuccess env.cmdStatus then
    match env.postStat with
    | .ok size =>
      if 0 < expectedSize ∧ size ≠ expectedSize then
        if env.standbyMode = true ∧ size < expectedSize then
          { outcome := .normal, found := false, pathOut := none,
            resolvedCmd := some cmd, cutoff := some cutoff,
            logs := logs ++ [(.DEBUG1, .wrongSize)] }
        else
          { outcome := .fatalAbort, found := false, pathOut := none,
            resolvedCmd := some cmd, cutoff := some cutoff,
            logs := logs ++ [(.FATAL, .wrongSize)] }
      else
        { outcome := .normal, found := true, pathOut := some xlogpath,
          resolvedCmd := some cmd, cutoff := some cutoff,
          logs := logs ++ [(.LOG, .restored)] }
    | .enoent => restoreClassify xlogfname cmd cutoff env.cmdStatus logs
    | .err =>
      { outcome := .fatalAbort, found := false, pathOut := none,
        resolvedCmd := some cmd, cutoff := some cutoff,
        logs := logs ++ [(.FATAL, .statFailed)] }
  else restoreClassify xlogfname cmd cutoff env.cmdStatus logs

/-- Lines 116-209: cutoff computation with its `Assert` (line 139), command
construction, the DEBUG3 "executing restore command" report, then the
post-command processing. -/
def restoreWithCutoff (env : RestoreEnv) (tmpl xlogfname xlogpath : List Char)
    (expectedSize : Nat) (cleanupEnabled : Bool) : RestoreResult :=
  let lastRestartPointFname := restoreCutoff cleanupEnabled env.restartTli env.restartSeg
  if cleanupEnabled = true ∧ strLe lastRestartPointFname xlogfname = false then
    { outcome := .assertFail, found := false, pathOut := none,
      resolvedCmd := none, cutoff := some lastRestartPointFname, logs := [] }
  else
    restoreAfterCommand env xlogfname xlogpath
      (expandRestoreTemplate tmpl xlogpath xlogfname lastRestartPointFname)
      lastRestartPointFname expectedSize [(.DEBUG3, .execCmd)]

/-- Embedding of `RestoreArchivedFile` (lines 49-315).  A missing `restore_command`
jumps straight to `not_available`; then the stale temporary file is
stat-ed and, if present, unlinked (either failing for a reason other than
ENOENT is FATAL); then the cutoff/command/execution phase runs. -/
def RestoreArchivedFile (env : RestoreEnv) (xlogfname recovername : List Char)
    (expectedSize : Nat) (cleanupEnabled : Bool) : RestoreResult :=
  match env.restoreCommand with
  | none =>
    { outcome := .normal, found := false, pathOut := some (notAvailablePath xlogfname),
      resolvedCmd := none, cutoff := none, logs := [] }
  | some tmpl =>
    let xlogpath := XLOGDIR ++ '/' :: recovername
    match env.preStat with
    | .err =>
      { outcome := .fatalAbort, found := false, pathOut := none,
        resolvedCmd := none, cutoff := none, logs := [(.FATAL, .statFailed)] }
    | .ok _ =>
      if env.unlinkOk then
        restoreWithCutoff env tmpl xlogfname xlogpath expectedSize cleanupEnabled
      else
        { outcome := .fatalAbort, found := false, pathOut := none,
          resolvedCmd := none, cutoff := none, logs := [(.FATAL, .removeFailed)] }
    | .enoent => restoreWithCutoff env tmpl xlogfname xlogpath expectedSize cleanupEnabled

/-- The pre-command stat/unlink phase (lines 96-114) completes without a
FATAL abort. -/
def preChecksPass (env : RestoreEnv) : Bool :=
  match env.preStat with
  | .err => false
  | .ok _ => env.unlinkOk
  | .enoent => true

/-- The call reaches `system(xlogRestoreCmd)`: the pre-checks pass and the
line-139 assertion (when cleanup is enabled) holds. -/
def reachesCommand (env : RestoreEnv) (xlogfname : List Char) (cleanupEnabled : Bool) : Bool :=
  preChecksPass env &&
    (!cleanupEnabled || strLe (XLogFileName env.restartTli env.restartSeg) xlogfname)

/-! ## ExecuteRecoveryCommand (lines 327-415) -/

/-- Observable result of one `ExecuteRecoveryCommand` call. -/
structure ExecResult where
  outcome : ProcOutcome
  resolvedCmd : List Char
  logs : List (Severity × LogTag)
deriving DecidableEq

/-- Embedding of `ExecuteRecoveryCommand` (lines 327-415): expand the template (only
`%r`/`%%` recognized), log the command at DEBUG3, run it; a nonzero result
is reported FATAL when it was a signal death or an exit status > 125 and
`failOnSignal` is set, else WARNING.  There is no special treatment of
SIGTERM here — it is classified with the other signals. -/
def ExecuteRecoveryCommand (restartTli restartSeg : Nat) (command : List Char)
    (failOnSignal : Bool) (rc : CmdStatus) : ExecResult :=
  let lastRestartPointFname := XLogFileName restartTli restartSeg
  let cmd := expandRecoveryTemplate command lastRestartPointFname
  if isSuccess rc then
    { outcome := .normal, resolvedCmd := cmd, logs := [(.DEBUG3, .execCmd)] }
  else if (WIFSIGNALED rc = true ∨ 125 < WEXITSTATUS rc) ∧ failOnSignal = true then
    { outcome := .fatalAbort, resolvedCmd := cmd,
      logs := [(.DEBUG3, .execCmd), (.FATAL, .recoveryCmdFailed)] }
  else
    { outcome := .normal, resolvedCmd := cmd,
      logs := [(.DEBUG3, .execCmd), (.WARNING, .recoveryCmdFailed)] }

/-! ## Archive status marker protocol (lines 418-578)

Marker paths are plain `String`s here.  Each `stat` call in one operation
reads its own indexed filesystem snapshot `fs n path`, because the markers
are concurrently created/removed by other processes; the `reads` field
records the sequence of paths stat-ed, in order. -/

/-- Path builder `StatusFilePath(path, xlog, suffix)`:
`XLOGDIR "/archive_status/%s%s"`. -/
def StatusFilePath (xlog suffix : String) : String :=
  "pg_xlog/archive_status/" ++ xlog ++ suffix

/-- External state consumed by `XLogArchiveNotify`: whether
`AllocateFile(path, "w")` succeeds, whether `FreeFile` (close/flush)
succeeds, and `IsUnderPostmaster`. -/
structure NotifyEnv where
  createOk : Bool
  closeOk : Bool
  underPostmaster : Bool
deriving DecidableEq

/-- Observable result of `XLogArchiveNotify`: whether the `.ready` file was
created, which path it targets, which LOG message (if any) was emitted, and
whether `SendPostmasterSignal(PMSIGNAL_WAKEN_ARCHIVER)` was reached. -/
structure NotifyResult where
  created : Bool
  readyPath : String
  logs : List (Severity × LogTag)
  signaledArchiver : Bool
deriving DecidableEq

/-- Embedding of `XLogArchiveNotify` (lines 428-457): create the empty `<xlog>.ready`
file; on creation failure log at LOG and return; on close failure log at
LOG and return; only then, and only under the postmaster, wake the
archiver. -/
def XLogArchiveNotify (env : NotifyEnv) (xlog : String) : NotifyResult :=
  let path := StatusFilePath xlog ".ready"
  if env.createOk = false then
    { created := false, readyPath := path,
      logs := [(.LOG, .createStatusFailed)], signaledArchiver := false }
  else if env.closeOk = false then
    { created := true, readyPath := path,
      logs := [(.LOG, .writeStatusFailed)], signaledArchiver := false }
  else
    { created := true, readyPath := path, logs := [],
      signaledArchiver := env.underPostmaster }

/-- Observable result of one `XLogArchiveCheckDone`/`XLogArchiveIsBusy`
call: the returned boolean, the paths stat-ed in order, and whether
`XLogArchiveNotify` was invoked. -/
structure ArchResult where
  value : Bool
  reads : List String
  notified : Bool
deriving DecidableEq

/-- Embedding of `XLogArchiveCheckDone` (lines 485-513): deletable immediately when
archiving is off; else `.done` → true; else `.ready` → false; else re-stat
`.done` → true; else retry `.ready` creation via `XLogArchiveNotify` and
return false. -/
def XLogArchiveCheckDone (archivingActive : Bool) (fs : Nat → String → StatR)
    (xlog : String) : ArchResult :=
  if !archivingActive then
    { value := true, reads := [], notified := false }
  else
    let p0 := StatusFilePath xlog ".done"
    if statOk (fs 0 p0) then { value := true, reads := [p0], notified := false }
    else
      let p1 := StatusFilePath xlog ".ready"
      if statOk (fs 1 p1) then { value := false, reads := [p0, p1], notified := false }
      else
        let p2 := StatusFilePath xlog ".done"
        if statOk (fs 2 p2) then { value := true, reads := [p0, p1, p2], notified := false }
        else { value := false, reads := [p0, p1, p2], notified := true }

/-- Embedding of `XLogArchiveIsBusy` (lines 525-557): `.done` → false; else `.ready` →
true; else re-stat `.done` → false; else stat the live segment file and
return false exactly when that stat fails with ENOENT; never creates a
`.ready` marker. -/
def XLogArchiveIsBusy (fs : Nat → String → StatR) (xlog : String) : ArchResult :=
  let p0 := StatusFilePath xlog ".done"
  if statOk (fs 0 p0) then { value := false, reads := [p0], notified := false }
  else
    let p1 := StatusFilePath xlog ".ready"
    if statOk (fs 1 p1) then { value := true, reads := [p0, p1], notified := false }
    else
      let p2 := StatusFilePath xlog ".done"
      if statOk (fs 2 p2) then { value := false, reads := [p0, p1, p2], notified := false }
      else
        let p3 := "pg_xlog/" ++ xlog
        match fs 3 p3 with
        | .enoent => { value := false, reads := [p0, p1, p2, p3], notified := false }
        | _ => { value := true, reads := [p0, p1, p2, p3], notified := false }

/-! ## Spec-side descriptions for the refinement claims C1 and C6

These two definitions are written from the wording of spec §4.4 (the
ordered-check descriptions of `checkDone` and `isBusy`), to be compared
with the source-derived definitions above. -/

/-- Spec-side `checkDone` (spec §4.4): "check `done` marker present → true;
else check `ready` marker present → false; else re-check `done` → true if
now present; else call `notify` and return false.  If archiving is not
active at all, always return true" — with no marker examined in that last
case. -/
def checkDoneSpec (archivingActive : Bool) (fs : Nat → String → StatR)
    (xlog : String) : ArchResult :=
  let done := StatusFilePath xlog ".done"
  let ready := StatusFilePath xlog ".ready"
  if archivingActive = false then
    { value := true, reads := [], notified := false }
  else if statOk (fs 0 done) then
    { value := true, reads := [done], notified := false }
  else if statOk (fs 1 ready) then
    { value := false, reads := [done, ready], notified := false }
  else if statOk (fs 2 done) then
    { value := true, reads := [done, ready, done], notified := false }
  else
    { value := false, reads := [done, ready, done], notified := true }

/-- Spec-side `isBusy` (spec §4.4): "same ordered-check shape as `checkDone`
but does not have authority to create a missing `ready` marker;
additionally, if neither marker nor the live segment file itself exists,
returns false". -/
def isBusySpec (fs : Nat → String → StatR) (xlog : String) : ArchResult :=
  let done := StatusFilePath xlog ".done"
  let ready := StatusFilePath xlog ".ready"
  let seg := "pg_xlog/" ++ xlog
  if statOk (fs 0 done) then
    { value := false, reads := [done], notified := false }
  else if statOk (fs 1 ready) then
    { value := true, reads := [done, ready], notified := false }
  else if statOk (fs 2 done) then
    { value := false, reads := [done, ready, done], notified := false }
  else if fs 3 seg = .enoent then
    { value := false, reads := [done, ready, done, seg], notified := false }
  else
    { value := true, reads := [done, ready, done, seg], notified := false }

/-! ## Buffer-bound lemmas for the template expander -/

theorem appendChar_length_le (out : List Char) (c : Char)
    (h : out.length ≤ MAXPGPATH - 1) : (appendChar out c).length ≤ MAXPGPATH - 1 := by
  unfold appendChar
  split_ifs with hlt
  · simp only [List.length_append, List.length_singleton]
    omega
  · exact h

theorem appendStrN_length_le (out src : List Char)
    (h : out.length ≤ MAXPGPATH - 1) : (appendStrN out src).length ≤ MAXPGPATH - 1 := by
  unfold appendStrN
  split_ifs with h0
  · exact h
  · simp only [List.length_append, List.length_take]
    have := Nat.min_le_left (MAXPGPATH - 1 - out.length - 1) src.length
    omega

theorem expandRestoreLoop_length_le (p f r : List Char) :
    ∀ (n : Nat) (t out : List Char), t.length ≤ n → out.length ≤ MAXPGPATH - 1 →
      (expandRestoreLoop p f r t out).length ≤ MAXPGPATH - 1 := by
  intro n
  induction n with
  | zero =>
    intro t out ht hout
    have ht0 : t = [] := List.length_eq_zero.mp (Nat.le_zero.mp ht)
    subst ht0
    rw [expandRestoreLoop.eq_1]
    exact hout
  | succ n ih =>
    intro t out ht hout
    match t with
    | [] =>
      rw [expandRestoreLoop.eq_1]
      exact hout
    | [c] =>
      rw [expandRestoreLoop.eq_2]
      split_ifs with hc
      · exact appendChar_length_le out '%' hout
      · rw [expandRestoreLoop.eq_1]
        exact appendChar_length_le out c hout
    | c :: c2 :: rest2 =>
      rw [expandRestoreLoop.eq_3]
      simp only [List.length_cons] at ht
      split_ifs with hc h1 h2 h3 h4
      · exact ih rest2 _ (by omega) (appendStrN_length_le out p hout)
      · exact ih rest2 _ (by omega) (appendStrN_length_le out f hout)
      · exact ih rest2 _ (by omega) (appendStrN_length_le out r hout)
      · exact ih rest2 _ (by omega) (appendChar_length_le out '%' hout)
      · exact ih (c2 :: rest2) _ (by simp only [List.length_cons]; omega)
          (appendChar_length_le out '%' hout)
      · exact ih (c2 :: rest2) _ (by simp only [List.length_cons]; omega)
          (appendChar_length_le out c hout)

theorem expandRecoveryLoop_length_le (r : List Char) :
    ∀ (n : Nat) (t out : List Char), t.length ≤ n → out.length ≤ MAXPGPATH - 1 →
      (expandRecoveryLoop r t out).length ≤ MAXPGPATH - 1 := by
  intro n
  induction n with
  | zero =>
    intro t out ht hout
    have ht0 : t = [] := List.length_eq_zero.mp (Nat.le_zero.mp ht)
    subst ht0
    rw [expandRecoveryLoop.eq_1]
    exact hout
  | succ n ih =>
    intro t out ht hout
    match t with
    | [] =>
      rw [expandRecoveryLoop.eq_1]
      exact hout
    | [c] =>
      rw [expandRecoveryLoop.eq_2]
      split_ifs with hc
      · exact appendChar_length_le out '%' hout
      · rw [expandRecoveryLoop.eq_1]
        exact appendChar_length_le out c hout
    | c :: c2 :: rest2 =>
      rw [expandRecoveryLoop.eq_3]
      simp only [List.length_cons] at ht
      split_ifs with hc h1 h2
      · exact ih rest2 _ (by omega) (appendStrN_length_le out r hout)
      · exact ih rest2 _ (by omega) (appendChar_length_le out '%' hout)
      · exact ih (c2 :: rest2) _ (by simp only [List.length_cons]; omega)
          (appendChar_length_le out '%' hout)
      · exact ih (c2 :: rest2) _ (by simp only [List.length_cons]; omega)
          (appendChar_length_le out c hout)

/-- C9: for every template and every set of substitution values, including
those whose full expansion would exceed MAXPGPATH, the expansion loop never
writes past the destination buffer: the resolved string holds at most
`MAXPGPATH - 1` characters, so the closing `*dp = '\0'` (the terminator,
implicit in the `List Char` model) always lands inside the `char[MAXPGPATH]`
buffer, and the characters past capacity are dropped by `appendChar`/
`appendStrN` instead of being written out of bounds (both are total
functions: no error path exists).  Stated for the expansion loops of both
`RestoreArchivedFile` and `ExecuteRecoveryCommand`. -/
theorem expansion_truncation_safe (tmpl xlogpath xlogfname lastRestart : List Char) :
    (expandRestoreTemplate tmpl xlogpath xlogfname lastRestart).length ≤ MAXPGPATH - 1 ∧
    (expandRecoveryTemplate tmpl lastRestart).length ≤ MAXPGPATH - 1 :=
  ⟨expandRestoreLoop_length_le xlogpath xlogfname lastRestart tmpl.length tmpl []
      (Nat.le_refl _) (by simp [MAXPGPATH]),
   expandRecoveryLoop_length_le lastRestart tmpl.length tmpl []
      (Nat.le_refl _) (by simp [MAXPGPATH])⟩

/-- C8: template expansion is a pure function in this embedding (its output
is determined by the template and the substitution values alone — there is
no other input it could depend on), `%%` emits exactly one literal `%`, and
a `%` followed by any unrecognized character emits both the `%` and that
character unchanged, in both expansion loops.  The buffer-room hypothesis
says the two emitted characters are not truncated away. -/
theorem expansion_placeholder_passthrough
    (xlogpath xlogfname lastRestart out rest : List Char) (c : Char)
    (hroom : out.length + 2 ≤ MAXPGPATH - 1) :
    expandRestoreLoop xlogpath xlogfname lastRestart ('%' :: '%' :: rest) out
        = expandRestoreLoop xlogpath xlogfname lastRestart rest (out ++ ['%']) ∧
    (c ≠ 'p' → c ≠ 'f' → c ≠ 'r' → c ≠ '%' →
      expandRestoreLoop xlogpath xlogfname lastRestart ('%' :: c :: rest) out
        = expandRestoreLoop xlogpath xlogfname lastRestart rest (out ++ ['%', c])) ∧
    expandRecoveryLoop lastRestart ('%' :: '%' :: rest) out
        = expandRecoveryLoop lastRestart rest (out ++ ['%']) ∧
    (c ≠ 'r' → c ≠ '%' →
      expandRecoveryLoop lastRestart ('%' :: c :: rest) out
        = expandRecoveryLoop lastRestart rest (out ++ ['%', c])) := by
  have h1 : out.length < MAXPGPATH - 1 := by omega
  have h2 : (out ++ ['%']).length < MAXPGPATH - 1 := by simp; omega
  have e12 : appendChar (appendChar out '%') c = out ++ ['%', c] := by
    simp [appendChar, h1, h2]; omega
  refine ⟨?_, ?_, ?_, ?_⟩
  · simp [expandRestoreLoop, appendChar, h1]
  · intro hp hf hr hpc
    simp only [expandRestoreLoop, if_neg hp, if_neg hf, if_neg hr, if_neg hpc, ite_self]
    cases rest with
    | nil =>
      rw [expandRestoreLoop.eq_2, if_neg hpc, expandRestoreLoop.eq_1,
        expandRestoreLoop.eq_1, e12]
    | cons r1 rrest =>
      rw [expandRestoreLoop.eq_3, if_neg hpc, e12]
  · simp [expandRecoveryLoop, appendChar, h1]
  · intro hr hpc
    simp only [expandRecoveryLoop, if_neg hr, if_neg hpc, ite_self]
    cases rest with
    | nil =>
      rw [expandRecoveryLoop.eq_2, if_neg hpc, expandRecoveryLoop.eq_1,
        expandRecoveryLoop.eq_1, e12]
    | cons r1 rrest =>
      rw [expandRecoveryLoop.eq_3, if_neg hpc, e12]

/-- Witness for C8 at concrete inputs. -/
theorem expansion_placeholder_passthrough_witness :
    expandRestoreLoop ['a'] ['b'] ['c'] ['%', '%'] []
        = expandRestoreLoop ['a'] ['b'] ['c'] [] ['%'] ∧
    expandRestoreLoop ['a'] ['b'] ['c'] ['%', 'x'] []
        = expandRestoreLoop ['a'] ['b'] ['c'] [] ['%', 'x'] ∧
    expandRecoveryLoop ['c'] ['%', '%'] [] = expandRecoveryLoop ['c'] [] ['%'] ∧
    expandRecoveryLoop ['c'] ['%', 'x'] [] = expandRecoveryLoop ['c'] [] ['%', 'x'] :=
  ⟨(expansion_placeholder_passthrough ['a'] ['b'] ['c'] [] [] 'x' (by decide)).1,
   (expansion_placeholder_passthrough ['a'] ['b'] ['c'] [] [] 'x' (by decide)).2.1
      (by decide) (by decide) (by decide) (by decide),
   (expansion_placeholder_passthrough ['a'] ['b'] ['c'] [] [] 'x' (by decide)).2.2.1,
   (expansion_placeholder_passthrough ['a'] ['b'] ['c'] [] [] 'x' (by decide)).2.2.2
      (by decide) (by decide)⟩

/-! ## Lexicographic facts about segment filenames -/

theorem hexDigit_ge_zero (n : Nat) : ('0' : Char).toNat ≤ (hexDigit n).toNat := by
  have key : ∀ k : Fin 16, ('0' : Char).toNat ≤ (hexDigit k.val).toNat := by decide
  have hlt : n % 16 < 16 := Nat.mod_lt _ (by norm_num)
  have e : hexDigit n = hexDigit (n % 16) := by
    have e2 : n % 16 % 16 = n % 16 := by omega
    unfold hexDigit
    rw [e2]
  rw [e]
  exact key ⟨n % 16, hlt⟩

theorem hex8_length (n : Nat) : (hex8 n).length = 8 := by
  simp [hex8]

theorem hex8_mem_ge (n : Nat) :
    ∀ c ∈ hex8 n, ('0' : Char).toNat ≤ c.toNat := by
  intro c hc
  simp only [hex8, List.mem_map] at hc
  obtain ⟨i, _, hi⟩ := hc
  rw [← hi]
  exact hexDigit_ge_zero _

theorem XLogFileName_length (tli segno : Nat) : (XLogFileName tli segno).length = 24 := by
  simp [XLogFileName, hex8_length]

theorem XLogFileName_mem_ge (tli segno : Nat) :
    ∀ c ∈ XLogFileName tli segno, ('0' : Char).toNat ≤ c.toNat := by
  intro c hc
  simp only [XLogFileName, List.mem_append] at hc
  rcases hc with (h | h) | h
  · exact hex8_mem_ge _ c h
  · exact hex8_mem_ge _ c h
  · exact hex8_mem_ge _ c h

theorem strLe_replicate_zero (l : List Char)
    (h : ∀ c ∈ l, ('0' : Char).toNat ≤ c.toNat) :
    strLe (List.replicate l.length '0') l = true := by
  induction l with
  | nil => rfl
  | cons b bs ih =>
    have hb : ('0' : Char).toNat ≤ b.toNat := h b (List.mem_cons_self b bs)
    rw [List.length_cons, List.replicate_succ]
    unfold strLe
    split_ifs with h1 h2
    · rfl
    · exact absurd (Nat.lt_of_lt_of_le h2 hb) (Nat.lt_irrefl _)
    · exact ih fun c hc => h c (List.mem_cons_of_mem b hc)

theorem XLogFileName_zero : XLogFileName 0 0 = List.replicate 24 '0' := by decide

/-- Sentinel fact: `XLogFileName(0, 0)` sorts at or before every segment filename: it is
the lexicographically smallest possible one. -/
theorem XLogFileName_zero_le (tli segno : Nat) :
    strLe (XLogFileName 0 0) (XLogFileName tli segno) = true := by
  rw [XLogFileName_zero, ← XLogFileName_length tli segno]
  exact strLe_replicate_zero _ (XLogFileName_mem_ge tli segno)

/-! ## Archive status protocol theorems -/

/-- C1: for every segment name and every (possibly changing) filesystem,
`XLogArchiveCheckDone` equals the spec-side ordered-check description
`checkDoneSpec`: with archiving active it checks `.done` (true), then
`.ready` (false), then re-checks `.done` (true), else calls
`XLogArchiveNotify` and returns false; with archiving inactive it returns
true having examined no marker (empty read trace, no notify). -/
theorem checkDone_matches_spec (archivingActive : Bool) (fs : Nat → String → StatR)
    (xlog : String) :
    XLogArchiveCheckDone archivingActive fs xlog = checkDoneSpec archivingActive fs xlog := by
  cases archivingActive <;> rfl

/-- C6: for every segment name and every (possibly changing) filesystem,
`XLogArchiveIsBusy` equals the spec-side description `isBusySpec` —
`.done` → false, else `.ready` → true, else re-check `.done` → false, else
false exactly when the live segment file is absent (stat fails with
ENOENT) — and it never invokes `XLogArchiveNotify`, i.e. never creates a
`.ready` marker. -/
theorem isBusy_matches_spec (fs : Nat → String → StatR) (xlog : String) :
    XLogArchiveIsBusy fs xlog = isBusySpec fs xlog ∧
    (XLogArchiveIsBusy fs xlog).notified = false := by
  constructor
  · simp only [XLogArchiveIsBusy, isBusySpec]
    rcases h3 : fs 3 ("pg_xlog/" ++ xlog) with sz | _ | _ <;> simp [h3]
  · simp only [XLogArchiveIsBusy]
    rcases h3 : fs 3 ("pg_xlog/" ++ xlog) with sz | _ | _ <;>
      simp [h3] <;> split_ifs <;> simp

/-- C10: `XLogArchiveNotify` reaches the archiver wake-up signal exactly
when the `.ready` creation succeeded, the close/flush succeeded, and the
process runs under the postmaster; when either file step fails it emits a
LOG message and returns without signaling; the marker file targeted is
`<xlog>.ready` in the archive-status directory and it has been created
whenever `AllocateFile` succeeded. -/
theorem archiveNotify_signal_gating (env : NotifyEnv) (xlog : String) :
    (XLogArchiveNotify env xlog).signaledArchiver
        = (env.createOk && env.closeOk && env.underPostmaster) ∧
    (XLogArchiveNotify env xlog).created = env.createOk ∧
    ((XLogArchiveNotify env xlog).logs = [] ↔ (env.createOk && env.closeOk) = true) ∧
    (XLogArchiveNotify env xlog).readyPath = StatusFilePath xlog ".ready" := by
  rcases env with ⟨c, cl, u⟩
  cases c <;> cases cl <;> cases u <;>
    simp [XLogArchiveNotify]

/-! ## Structural lemmas about RestoreArchivedFile -/

theorem restoreClassify_cutoff (xlogfname cmd cutoff : List Char) (rc : CmdStatus)
    (logs : List (Severity × LogTag)) :
    (restoreClassify xlogfname cmd cutoff rc logs).cutoff = some cutoff := by
  unfold restoreClassify
  split_ifs <;> rfl

theorem restoreClassify_not_assert (xlogfname cmd cutoff : List Char) (rc : CmdStatus)
    (logs : List (Severity × LogTag)) :
    (restoreClassify xlogfname cmd cutoff rc logs).outcome ≠ ProcOutcome.assertFail := by
  unfold restoreClassify
  split_ifs <;> simp

theorem restoreAfterCommand_cutoff (env : RestoreEnv)
    (xlogfname xlogpath cmd cutoff : List Char) (expectedSize : Nat)
    (logs : List (Severity × LogTag)) :
    (restoreAfterCommand env xlogfname xlogpath cmd cutoff expectedSize logs).cutoff
      = some cutoff := by
  unfold restoreAfterCommand
  split_ifs with hs
  · rcases hp : env.postStat with sz | _ | _
    · simp only [hp]
      split_ifs <;> rfl
    · simp only [hp]
      exact restoreClassify_cutoff xlogfname cmd cutoff env.cmdStatus logs
    · simp [hp]
  · exact restoreClassify_cutoff xlogfname cmd cutoff env.cmdStatus logs

theorem restoreAfterCommand_not_assert (env : RestoreEnv)
    (xlogfname xlogpath cmd cutoff : List Char) (expectedSize : Nat)
    (logs : List (Severity × LogTag)) :
    (restoreAfterCommand env xlogfname xlogpath cmd cutoff expectedSize logs).outcome
      ≠ ProcOutcome.assertFail := by
  unfold restoreAfterCommand
  split_ifs with hs
  · rcases hp : env.postStat with sz | _ | _
    · simp only [hp]
      split_ifs <;> simp
    · simp only [hp]
      exact restoreClassify_not_assert xlogfname cmd cutoff env.cmdStatus logs
    · simp [hp]
  · exact restoreClassify_not_assert xlogfname cmd cutoff env.cmdStatus logs

theorem restore_pre (env : RestoreEnv) (tmpl xlogfname recovername : List Char)
    (expectedSize : Nat) (cleanupEnabled : Bool)
    (h1 : env.restoreCommand = some tmpl)
    (hpre : preChecksPass env = true) :
    RestoreArchivedFile env xlogfname recovername expectedSize cleanupEnabled =
      restoreWithCutoff env tmpl xlogfname (XLOGDIR ++ '/' :: recovername)
        expectedSize cleanupEnabled := by
  unfold preChecksPass at hpre
  simp only [RestoreArchivedFile, h1]
  rcases hp : env.preStat with sz | _ | _
  · rw [hp] at hpre
    simp only [hp]
    rw [if_pos hpre]
  · simp only [hp]
  · rw [hp] at hpre
    cases hpre

theorem restore_reaches (env : RestoreEnv) (tmpl xlogfname recovername : List Char)
    (expectedSize : Nat) (cleanupEnabled : Bool)
    (h1 : env.restoreCommand = some tmpl)
    (h2 : reachesCommand env xlogfname cleanupEnabled = true) :
    RestoreArchivedFile env xlogfname recovername expectedSize cleanupEnabled =
      restoreAfterCommand env xlogfname (XLOGDIR ++ '/' :: recovername)
        (expandRestoreTemplate tmpl (XLOGDIR ++ '/' :: recovername) xlogfname
          (restoreCutoff cleanupEnabled env.restartTli env.restartSeg))
        (restoreCutoff cleanupEnabled env.restartTli env.restartSeg)
        expectedSize [(Severity.DEBUG3, LogTag.execCmd)] := by
  unfold reachesCommand at h2
  rw [Bool.and_eq_true] at h2
  obtain ⟨hpre, hA⟩ := h2
  rw [restore_pre env tmpl xlogfname recovername expectedSize cleanupEnabled h1 hpre]
  simp only [restoreWithCutoff]
  rw [if_neg]
  rintro ⟨hc, hs⟩
  rw [hc] at hA hs
  simp only [Bool.not_true, Bool.false_or] at hA
  have hrc : restoreCutoff true env.restartTli env.restartSeg
      = XLogFileName env.restartTli env.restartSeg := by
    simp [restoreCutoff]
  rw [hrc] at hs
  rw [hA] at hs
  cases hs

/-! ## Claim theorems about RestoreArchivedFile and ExecuteRecoveryCommand -/

/-- C2: with the restore command reporting success, the restored file
present, a nonzero expected size supplied, and the actual size different:
in standby mode with a smaller-than-expected file the mismatch is logged at
DEBUG1 and the function returns false without aborting; in every other
size-mismatch case the `ereport` is FATAL and the process aborts. -/
theorem restore_size_mismatch (env : RestoreEnv) (tmpl xlogfname recovername : List Char)
    (expectedSize size : Nat) (cleanupEnabled : Bool)
    (h1 : env.restoreCommand = some tmpl)
    (h2 : reachesCommand env xlogfname cleanupEnabled = true)
    (h3 : env.cmdStatus = .exited 0)
    (h4 : env.postStat = .ok size)
    (h5 : 0 < expectedSize)
    (h6 : size ≠ expectedSize) :
    (env.standbyMode = true → size < expectedSize →
      (RestoreArchivedFile env xlogfname recovername expectedSize cleanupEnabled).outcome
          = ProcOutcome.normal ∧
      (RestoreArchivedFile env xlogfname recovername expectedSize cleanupEnabled).found = false ∧
      (RestoreArchivedFile env xlogfname recovername expectedSize cleanupEnabled).logs
          = [(.DEBUG3, .execCmd), (.DEBUG1, .wrongSize)]) ∧
    (¬(env.standbyMode = true ∧ size < expectedSize) →
      (RestoreArchivedFile env xlogfname recovername expectedSize cleanupEnabled).outcome
          = ProcOutcome.fatalAbort ∧
      (RestoreArchivedFile env xlogfname recovername expectedSize cleanupEnabled).logs
          = [(.DEBUG3, .execCmd), (.FATAL, .wrongSize)]) := by
  rw [restore_reaches env tmpl xlogfname recovername expectedSize cleanupEnabled h1 h2]
  unfold restoreAfterCommand
  simp only [h3, h4, isSuccess]
  rw [if_pos trivial, if_pos ⟨h5, h6⟩]
  constructor
  · intro hsb hlt
    rw [if_pos ⟨hsb, hlt⟩]
    exact ⟨rfl, rfl, rfl⟩
  · intro hn
    rw [if_neg hn]
    exact ⟨rfl, rfl⟩

/-- Witness for C2 at a concrete environment (standby, size 1 of expected
2). -/
theorem restore_size_mismatch_witness :
    (RestoreArchivedFile ⟨some [], true, .enoent, true, 0, 0, .exited 0, .ok 1⟩
        [] [] 2 false).outcome = ProcOutcome.normal ∧
    (RestoreArchivedFile ⟨some [], true, .enoent, true, 0, 0, .exited 0, .ok 1⟩
        [] [] 2 false).found = false ∧
    (RestoreArchivedFile ⟨some [], true, .enoent, true, 0, 0, .exited 0, .ok 1⟩
        [] [] 2 false).logs = [(.DEBUG3, .execCmd), (.DEBUG1, .wrongSize)] :=
  (restore_size_mismatch ⟨some [], true, .enoent, true, 0, 0, .exited 0, .ok 1⟩
      [] [] [] 2 1 false rfl rfl rfl rfl (by decide) (by decide)).1 rfl (by decide)

/-- C7: with a configured restore command exiting 0, the file present at
the temporary recovery path, and no size mismatch (no expected size, or an
equal one), the function returns true with the temporary path and a
LOG-severity report. -/
theorem restore_success (env : RestoreEnv) (tmpl xlogfname recovername : List Char)
    (expectedSize size : Nat) (cleanupEnabled : Bool)
    (h1 : env.restoreCommand = some tmpl)
    (h2 : reachesCommand env xlogfname cleanupEnabled = true)
    (h3 : env.cmdStatus = .exited 0)
    (h4 : env.postStat = .ok size)
    (h5 : expectedSize = 0 ∨ size = expectedSize) :
    (RestoreArchivedFile env xlogfname recovername expectedSize cleanupEnabled).outcome
        = ProcOutcome.normal ∧
    (RestoreArchivedFile env xlogfname recovername expectedSize cleanupEnabled).found = true ∧
    (RestoreArchivedFile env xlogfname recovername expectedSize cleanupEnabled).pathOut
        = some (XLOGDIR ++ '/' :: recovername) ∧
    (RestoreArchivedFile env xlogfname recovername expectedSize cleanupEnabled).logs
        = [(.DEBUG3, .execCmd), (.LOG, .restored)] := by
  rw [restore_reaches env tmpl xlogfname recovername expectedSize cleanupEnabled h1 h2]
  unfold restoreAfterCommand
  simp only [h3, h4, isSuccess]
  rw [if_pos trivial, if_neg]
  · exact ⟨rfl, rfl, rfl, rfl⟩
  · rintro ⟨hpos, hne⟩
    rcases h5 with h5 | h5
    · rw [h5] at hpos
      exact Nat.lt_irrefl 0 hpos
    · exact hne h5

/-- Witness for C7 at a concrete environment. -/
theorem restore_success_witness :
    (RestoreArchivedFile ⟨some [], false, .enoent, true, 0, 0, .exited 0, .ok 7⟩
        [] [] 0 false).outcome = ProcOutcome.normal ∧
    (RestoreArchivedFile ⟨some [], false, .enoent, true, 0, 0, .exited 0, .ok 7⟩
        [] [] 0 false).found = true ∧
    (RestoreArchivedFile ⟨some [], false, .enoent, true, 0, 0, .exited 0, .ok 7⟩
        [] [] 0 false).pathOut = some (XLOGDIR ++ '/' :: []) ∧
    (RestoreArchivedFile ⟨some [], false, .enoent, true, 0, 0, .exited 0, .ok 7⟩
        [] [] 0 false).logs = [(.DEBUG3, .execCmd), (.LOG, .restored)] :=
  restore_success ⟨some [], false, .enoent, true, 0, 0, .exited 0, .ok 7⟩
    [] [] [] 0 7 false rfl rfl rfl rfl (Or.inl rfl)

/-- C4: when the restore command neither succeeded nor died from SIGTERM:
death by any other signal, or an exit status above 125, is FATAL; any other
nonzero exit is logged at DEBUG2 and yields the ordinary not-found return
with the conventional on-disk path. -/
theorem restore_failure_classification (env : RestoreEnv)
    (tmpl xlogfname recovername : List Char)
    (expectedSize : Nat) (cleanupEnabled : Bool)
    (h1 : env.restoreCommand = some tmpl)
    (h2 : reachesCommand env xlogfname cleanupEnabled = true)
    (h3 : isSuccess env.cmdStatus = false)
    (h4 : ¬(WIFSIGNALED env.cmdStatus = true ∧ WTERMSIG env.cmdStatus = SIGTERM)) :
    ((WIFSIGNALED env.cmdStatus = true ∨ 125 < WEXITSTATUS env.cmdStatus) →
      (RestoreArchivedFile env xlogfname recovername expectedSize cleanupEnabled).outcome
          = ProcOutcome.fatalAbort ∧
      (RestoreArchivedFile env xlogfname recovername expectedSize cleanupEnabled).logs
          = [(.DEBUG3, .execCmd), (.FATAL, .restoreFailed)]) ∧
    (¬(WIFSIGNALED env.cmdStatus = true ∨ 125 < WEXITSTATUS env.cmdStatus) →
      (RestoreArchivedFile env xlogfname recovername expectedSize cleanupEnabled).outcome
          = ProcOutcome.normal ∧
      (RestoreArchivedFile env xlogfname recovername expectedSize cleanupEnabled).found
          = false ∧
      (RestoreArchivedFile env xlogfname recovername expectedSize cleanupEnabled).pathOut
          = some (notAvailablePath xlogfname) ∧
      (RestoreArchivedFile env xlogfname recovername expectedSize cleanupEnabled).logs
          = [(.DEBUG3, .execCmd), (.DEBUG2, .restoreFailed)]) := by
  rw [restore_reaches env tmpl xlogfname recovername expectedSize cleanupEnabled h1 h2]
  unfold restoreAfterCommand
  rw [h3, if_neg (by simp)]
  unfold restoreClassify
  rw [if_neg h4]
  constructor
  · intro hsig
    rw [if_pos hsig]
    exact ⟨rfl, rfl⟩
  · intro hnsig
    rw [if_neg hnsig]
    exact ⟨rfl, rfl, rfl, rfl⟩

/-- Witness for C4 at a concrete environment (ordinary exit code 1). -/
theorem restore_failure_classification_witness :
    (RestoreArchivedFile ⟨some [], false, .enoent, true, 0, 0, .exited 1, .enoent⟩
        [] [] 0 false).outcome = ProcOutcome.normal ∧
    (RestoreArchivedFile ⟨some [], false, .enoent, true, 0, 0, .exited 1, .enoent⟩
        [] [] 0 false).found = false ∧
    (RestoreArchivedFile ⟨some [], false, .enoent, true, 0, 0, .exited 1, .enoent⟩
        [] [] 0 false).pathOut = some (notAvailablePath []) ∧
    (RestoreArchivedFile ⟨some [], false, .enoent, true, 0, 0, .exited 1, .enoent⟩
        [] [] 0 false).logs = [(.DEBUG3, .execCmd), (.DEBUG2, .restoreFailed)] :=
  (restore_failure_classification ⟨some [], false, .enoent, true, 0, 0, .exited 1, .enoent⟩
      [] [] [] 0 false rfl rfl rfl (by decide)).2 (by decide)

/-- C5: with the pre-command checks passing, the `%r` cutoff filename is
`XLogFileName(restartTli, restartSeg)` from the checkpoint collaborator
when `cleanupEnabled`, and in that case the line-139 assertion fails
exactly when that filename does not sort at or before the requested
segment's filename (an internal assertion, not a user-facing error); with
cleanup disabled the cutoff is `XLogFileName(0, 0)`, no assertion can fire,
and that sentinel sorts at or before every possible segment filename, so
the archive is never instructed to delete anything. -/
theorem restore_cutoff_spec (env : RestoreEnv) (tmpl xlogfname recovername : List Char)
    (expectedSize : Nat) (cleanupEnabled : Bool)
    (h1 : env.restoreCommand = some tmpl)
    (hpre : preChecksPass env = true) :
    (RestoreArchivedFile env xlogfname recovername expectedSize cleanupEnabled).cutoff
        = some (restoreCutoff cleanupEnabled env.restartTli env.restartSeg) ∧
    (cleanupEnabled = true →
      restoreCutoff cleanupEnabled env.restartTli env.restartSeg
          = XLogFileName env.restartTli env.restartSeg ∧
      ((RestoreArchivedFile env xlogfname recovername expectedSize cleanupEnabled).outcome
          = ProcOutcome.assertFail ↔
        strLe (XLogFileName env.restartTli env.restartSeg) xlogfname = false)) ∧
    (cleanupEnabled = false →
      restoreCutoff cleanupEnabled env.restartTli env.restartSeg = XLogFileName 0 0 ∧
      (RestoreArchivedFile env xlogfname recovername expectedSize cleanupEnabled).outcome
          ≠ ProcOutcome.assertFail ∧
      ∀ tli segno, strLe (XLogFileName 0 0) (XLogFileName tli segno) = true) := by
  rw [restore_pre env tmpl xlogfname recovername expectedSize cleanupEnabled h1 hpre]
  simp only [restoreWithCutoff]
  refine ⟨?_, ?_, ?_⟩
  · split_ifs with h
    · rfl
    · exact restoreAfterCommand_cutoff env xlogfname _ _ _ expectedSize _
  · intro hc
    subst hc
    have hrc : restoreCutoff true env.restartTli env.restartSeg
        = XLogFileName env.restartTli env.restartSeg := by
      simp [restoreCutoff]
    refine ⟨hrc, ?_, ?_⟩
    · intro ho
      by_contra hs
      rw [if_neg (by rintro ⟨_, hss⟩; rw [hrc] at hss; exact hs hss)] at ho
      exact restoreAfterCommand_not_assert env xlogfname _ _ _ expectedSize _ ho
    · intro hs
      rw [if_pos ⟨rfl, by rw [hrc]; exact hs⟩]
  · intro hc
    subst hc
    refine ⟨by simp [restoreCutoff], ?_,
      fun tli segno => XLogFileName_zero_le tli segno⟩
    rw [if_neg (by rintro ⟨hcc, _⟩; cases hcc)]
    exact restoreAfterCommand_not_assert env xlogfname _ _ _ expectedSize _

/-- Witness for C5 at a concrete environment (cleanup disabled). -/
theorem restore_cutoff_spec_witness :
    (RestoreArchivedFile ⟨some [], false, .enoent, true, 0, 0, .exited 0, .enoent⟩
        [] [] 0 false).cutoff = some (restoreCutoff false 0 0) ∧
    (RestoreArchivedFile ⟨some [], false, .enoent, true, 0, 0, .exited 0, .enoent⟩
        [] [] 0 false).outcome ≠ ProcOutcome.assertFail ∧
    strLe (XLogFileName 0 0) (XLogFileName 1 1) = true :=
  ⟨(restore_cutoff_spec ⟨some [], false, .enoent, true, 0, 0, .exited 0, .enoent⟩
      [] [] [] 0 false rfl rfl).1,
   ((restore_cutoff_spec ⟨some [], false, .enoent, true, 0, 0, .exited 0, .enoent⟩
      [] [] [] 0 false rfl rfl).2.2 rfl).2.1,
   ((restore_cutoff_spec ⟨some [], false, .enoent, true, 0, 0, .exited 0, .enoent⟩
      [] [] [] 0 false rfl rfl).2.2 rfl).2.2 1 1⟩

/-- C3 counterexample: at the `ExecuteRecoveryCommand` call site (one of
the two call sites the claim quantifies over), a child terminated by
SIGTERM with `failOnSignal = false` does not make the calling process exit
— the call returns normally — and the SIGTERM death IS classified and
logged as a command failure, at WARNING severity. -/
theorem execRecovery_sigterm_not_propagated :
    (ExecuteRecoveryCommand 0 0 ['x'] false (.signaled 15)).outcome
        = ProcOutcome.normal ∧
    (ExecuteRecoveryCommand 0 0 ['x'] false (.signaled 15)).logs
        = [(.DEBUG3, .execCmd), (.WARNING, .recoveryCmdFailed)] := by
  constructor <;> rfl

/-- C3 (amended): only `RestoreArchivedFile` special-cases SIGTERM — there
the child's SIGTERM death triggers `proc_exit(1)` before any
classification or error logging.  `ExecuteRecoveryCommand` has no SIGTERM
special case: the death is classified with the other signals and logged as
a command failure, FATAL when `failOnSignal` is set and WARNING otherwise,
and the process does not exit promptly in the WARNING case. -/
theorem sigterm_propagation (env : RestoreEnv) (tmpl xlogfname recovername : List Char)
    (expectedSize : Nat) (cleanupEnabled : Bool)
    (restartTli restartSeg : Nat) (command : List Char) (failOnSignal : Bool)
    (h1 : env.restoreCommand = some tmpl)
    (h2 : reachesCommand env xlogfname cleanupEnabled = true)
    (h3 : env.cmdStatus = .signaled SIGTERM) :
    ((RestoreArchivedFile env xlogfname recovername expectedSize cleanupEnabled).outcome
        = ProcOutcome.shutdownExit ∧
     (RestoreArchivedFile env xlogfname recovername expectedSize cleanupEnabled).logs
        = [(.DEBUG3, .execCmd)]) ∧
    ((ExecuteRecoveryCommand restartTli restartSeg command failOnSignal
        (.signaled SIGTERM)).outcome
        = (if failOnSignal = true then ProcOutcome.fatalAbort else ProcOutcome.normal) ∧
     (ExecuteRecoveryCommand restartTli restartSeg command failOnSignal
        (.signaled SIGTERM)).logs
        = [(.DEBUG3, .execCmd),
           ((if failOnSignal = true then Severity.FATAL else Severity.WARNING),
            LogTag.recoveryCmdFailed)]) := by
  constructor
  · rw [restore_reaches env tmpl xlogfname recovername expectedSize cleanupEnabled h1 h2]
    unfold restoreAfterCommand
    rw [h3]
    rw [if_neg (by simp [isSuccess])]
    unfold restoreClassify
    rw [if_pos ⟨rfl, rfl⟩]
    exact ⟨rfl, rfl⟩
  · simp only [ExecuteRecoveryCommand]
    rw [if_neg (by simp [isSuccess])]
    cases failOnSignal
    · rw [if_neg (by rintro ⟨_, hf⟩; cases hf)]
      exact ⟨rfl, rfl⟩
    · rw [if_pos ⟨Or.inl rfl, rfl⟩]
      exact ⟨rfl, rfl⟩

/-- Witness for the amended C3 at concrete inputs. -/
theorem sigterm_propagation_witness :
    (RestoreArchivedFile ⟨some [], false, .enoent, true, 0, 0, .signaled 15, .enoent⟩
        [] [] 0 false).outcome = ProcOutcome.shutdownExit ∧
    (ExecuteRecoveryCommand 0 0 ['y'] true (.signaled 15)).outcome
        = ProcOutcome.fatalAbort :=
  ⟨((sigterm_propagation ⟨some [], false, .enoent, true, 0, 0, .signaled 15, .enoent⟩
      [] [] [] 0 false 0 0 ['y'] true rfl rfl rfl).1).1,
   ((sigterm_propagation ⟨some [], false, .enoent, true, 0, 0, .signaled 15, .enoent⟩
      [] [] [] 0 false 0 0 ['y'] true rfl rfl rfl).2).1⟩

end XLogArchive
